import Mathlib

/-!
Shallow embedding of the RAG assistant's core (backend/ai_generator.py and
backend/search_tools.py) and proofs of the specification's claims about it.

The completion endpoint and the tool manager are external effects; they are
modelled as oracles supplied to the embedded functions: the k-th completion
request receives reply `replies k`, and the k-th tool execution of a run has
outcome `exec k call`.  This captures arbitrary (also stateful) behaviour of
the endpoint and of the registered tools.
-/

/-- A tool-invocation request carried by an assistant message
(`tool_call.id`, `tool_call.function.name`, `tool_call.function.arguments`). -/
structure ToolCall where
  id : String
  name : String
  arguments : String
deriving DecidableEq, Repr

/-- One entry of the `messages` transcript built by `generate_response`. -/
inductive Msg
  | system (content : String)
  | user (content : String)
  | assistant (content : Option String) (tool_calls : List ToolCall)
  | tool (tool_call_id : String) (content : String)
deriving DecidableEq, Repr

/-- The assistant message extracted from a completion response
(`response.choices[0].message`): optional text content plus the list of
requested tool calls (an absent/`None` list and an empty list are both
falsy in Python; both are modelled as `[]`). -/
structure AssistantMsg where
  content : Option String
  tool_calls : List ToolCall
deriving DecidableEq, Repr

/-- Outcome of one `tool_manager.execute_tool` attempt inside the round loop:
`json.loads` of the arguments fails (`JSONDecodeError`), the execution raises
(`Exception e`), or it returns a result string. -/
inductive ToolOutcome
  | success (result : String)
  | jsonError
  | execError (e : String)
deriving DecidableEq, Repr

/-- Environment of one `generate_response` run: the completion endpoint
(indexed by how many completion calls were made before) and the tool manager
(indexed by how many tool executions were made before, so stateful tools are
covered). -/
structure GenEnv where
  replies : Nat → AssistantMsg
  exec : Nat → ToolCall → ToolOutcome

/-- The `tool`-role message content produced for one tool call
(ai_generator.py lines 160-188). -/
def toolMsgContent : ToolOutcome → String
  | .success r => r
  | .jsonError => "Error: Invalid tool arguments format"
  | .execError e => "Error: Tool execution failed - " ++ e

/-- Whether the outcome sets `tool_execution_failed`. -/
def toolFailed : ToolOutcome → Bool
  | .success _ => false
  | .jsonError => true
  | .execError _ => true

/-- The `for tool_call in assistant_message.tool_calls` loop
(ai_generator.py lines 152-188): executes every requested call in order,
appending one `tool`-role message per call, and ORs the failure flag.
Returns (appended tool messages, new tool-execution counter, failed flag). -/
def execCalls (env : GenEnv) (te : Nat) : List ToolCall → List Msg × Nat × Bool
  | [] => ([], te, false)
  | c :: rest =>
    let out := env.exec te c
    let r := execCalls env (te + 1) rest
    (Msg.tool c.id (toolMsgContent out) :: r.1, r.2.1, toolFailed out || r.2.2)

/-- Result of the `while current_round < max_tool_rounds` loop
(ai_generator.py lines 121-192): either the function returned from inside the
loop (line 143, no tool calls requested), or the loop stopped (break at line
192, or the loop condition failed).  Each constructor carries the counters:
completion calls made, rounds in which the tool-execution phase ran, and
individual tool executions performed. -/
inductive LoopOut
  | done (answer : String) (comps rounds execs : Nat)
  | stopped (msgs : List Msg) (comps rounds execs : Nat)
deriving DecidableEq, Repr

/-- Completion-call counter of a loop result. -/
def LoopOut.comps : LoopOut → Nat
  | .done _ c _ _ => c
  | .stopped _ c _ _ => c

/-- Tool-phase (round) counter of a loop result. -/
def LoopOut.rounds : LoopOut → Nat
  | .done _ _ r _ => r
  | .stopped _ _ r _ => r

/-- Individual tool-execution counter of a loop result. -/
def LoopOut.execs : LoopOut → Nat
  | .done _ _ _ e => e
  | .stopped _ _ _ e => e

/-- `x or ""` on an optional string (Python): `None` and `""` both give `""`,
any other string gives itself — i.e. `Option.getD`. -/
def contentOrEmpty : Option String → String
  | none => ""
  | some s => s

/-- The round loop of `generate_response` (ai_generator.py lines 119-192),
with `fuel = max_tool_rounds - current_round` remaining iterations.  One
iteration: issue a completion request; if the reply requests no tools, return
its text (`content or ""`); otherwise append the assistant message, execute
all requested calls, and stop when this was the last permitted round or some
call failed. -/
def roundLoop (env : GenEnv) (msgs : List Msg) (cc tr te : Nat) : Nat → LoopOut
  | 0 => .stopped msgs cc tr te
  | fuel + 1 =>
    let reply := env.replies cc
    if reply.tool_calls.isEmpty then
      .done (contentOrEmpty reply.content) (cc + 1) tr te
    else
      let msgs1 := msgs ++ [Msg.assistant reply.content reply.tool_calls]
      let r := execCalls env te reply.tool_calls
      let msgs2 := msgs1 ++ r.1
      if fuel = 0 || r.2.2 then .stopped msgs2 (cc + 1) (tr + 1) r.2.1
      else roundLoop env msgs2 (cc + 1) (tr + 1) r.2.1 fuel

/-- The static system prompt (ai_generator.py, `SYSTEM_PROMPT`); its text is
irrelevant to every claim, so it is kept abstract here as an uninterpreted
constant string. -/
def SYSTEM_PROMPT : String := "<system prompt>"

/-- The initial `messages` list of `generate_response` (ai_generator.py lines
107-116).  Python truthiness: a `None` or empty `conversation_history`
appends no history message. -/
def initMessages (query : String) (conversation_history : Option String) : List Msg :=
  [Msg.system SYSTEM_PROMPT]
    ++ (match conversation_history with
        | some h => if h = "" then [] else [Msg.system ("Previous conversation:\n" ++ h)]
        | none => [])
    ++ [Msg.user query]

/-- `messages[-1]["content"] or ""` (ai_generator.py line 211), per role. -/
def msgContentOrEmpty : Msg → String
  | .system c => c
  | .user c => c
  | .assistant c _ => contentOrEmpty c
  | .tool _ c => c

/-- Result of one `generate_response` run: the returned string plus the run's
effect counters. -/
structure GenResult where
  answer : String
  completions : Nat
  toolRounds : Nat
  toolExecs : Nat
deriving DecidableEq, Repr

/-- The code after the round loop (ai_generator.py lines 194-211): when the
function returned from inside the loop its answer stands; otherwise, if the
last message is a `tool` message, one final synthesis completion is issued
and its text (`content or ""`) returned — its reply's tool calls, if any, are
ignored; otherwise the last message's content is returned (line 211).  The
`none` branch is unreachable: the transcript always holds at least the
initial messages. -/
def finishRun (env : GenEnv) : LoopOut → GenResult
  | .done ans cc tr te => ⟨ans, cc, tr, te⟩
  | .stopped ms cc tr te =>
    match ms.getLast? with
    | some (Msg.tool _ _) =>
      let reply := env.replies cc
      ⟨contentOrEmpty reply.content, cc + 1, tr, te⟩
    | some m => ⟨msgContentOrEmpty m, cc, tr, te⟩
    | none => ⟨"", cc, tr, te⟩

/-- `AIGenerator.generate_response` (ai_generator.py lines 88-211).
`max_tool_rounds` is a Python `int`, so it is taken as an integer; the loop
runs `max max_tool_rounds 0` iterations at most (`Int.toNat`). -/
def generate_response (env : GenEnv) (query : String)
    (conversation_history : Option String) (max_tool_rounds : Int) : GenResult :=
  finishRun env (roundLoop env (initMessages query conversation_history) 0 0 0
    max_tool_rounds.toNat)

/-! ## search_tools.py: data model -/

/-- A UI-facing citation entry as built by the tools: a dict with key
`"text"` and an optional key `"url"`. -/
structure Citation where
  text : String
  url : Option String
deriving DecidableEq, Repr

/-- Metadata of one search hit, as consumed by
`CourseSearchTool._format_results`: the dict keys `course_title` and
`lesson_number` (each possibly absent). -/
structure Meta where
  course_title : Option String
  lesson_number : Option Int
deriving DecidableEq, Repr

/-- The search provider's result object (`vector_store.SearchResults`):
parallel lists of documents and their metadata, plus an optional error. -/
structure SearchResults where
  documents : List String
  metadata : List Meta
  error : Option String
deriving DecidableEq, Repr

/-- Modelled from the spec: `SearchResults.is_empty` is defined in
`vector_store.py`, which is not among the sources (only `search_tools.py`
imports it and the tests construct it).  Per the spec the provider returns
"a ranked list of (document, metadata) pairs or a named error", so an empty
result set is one with no hits; the tests build the empty case with
`documents=[]`. -/
def SearchResults.is_empty (r : SearchResults) : Bool := r.documents.isEmpty

/-- The vector-store interface consumed by `CourseSearchTool`: `search` and
`get_lesson_link` (a link may be absent). -/
structure Store where
  search : String → Option String → Option Int → SearchResults
  get_lesson_link : String → Int → Option String

/-- Python truthiness of an optional string (`if x:`): `None` and `""` are
falsy. -/
def pyTruthyStr : Option String → Bool
  | none => false
  | some s => s ≠ ""

/-- Python truthiness of an optional integer (`if x:`): `None` and `0` are
falsy. -/
def pyTruthyInt : Option Int → Bool
  | none => false
  | some n => n ≠ 0

/-- The per-hit part of `CourseSearchTool._format_results` (search_tools.py
lines 98-124) that builds the formatted block for one (document, metadata)
pair: `[course_title - Lesson n]` header followed by the document. -/
def formatHit (p : String × Meta) : String :=
  let course_title := p.2.course_title.getD "unknown"
  let header :=
    "[" ++ course_title
      ++ (match p.2.lesson_number with
          | some n => " - Lesson " ++ toString n
          | none => "")
      ++ "]"
  header ++ "\n" ++ p.1

/-- The per-hit part of `CourseSearchTool._format_results` (search_tools.py
lines 108-122) that builds one source entry: `text` is the course title plus
an optional lesson suffix; `url` is the lesson link when a lesson number is
present, the link lookup succeeds and the link is truthy (`if lesson_link:`,
so an empty link string is dropped too). -/
def citeHit (store : Store) (p : String × Meta) : Citation :=
  let course_title := p.2.course_title.getD "unknown"
  let source_text :=
    course_title
      ++ (match p.2.lesson_number with
          | some n => " - Lesson " ++ toString n
          | none => "")
  let lesson_link :=
    match p.2.lesson_number with
    | some n => store.get_lesson_link course_title n
    | none => none
  { text := source_text
    url := match lesson_link with
           | some l => if l = "" then none else some l
           | none => none }

/-- `CourseSearchTool._format_results` (search_tools.py lines 93-129): one
pass over `zip(results.documents, results.metadata)` producing the formatted
text (blocks joined by blank lines) and the new `last_sources` list, which
replaces the previous buffer wholesale. -/
def format_results (store : Store) (results : SearchResults) : String × List Citation :=
  let pairs := results.documents.zip results.metadata
  (String.intercalate "\n\n" (pairs.map formatHit), pairs.map (citeHit store))

/-- `CourseSearchTool.execute` (search_tools.py lines 57-91), with the
`last_sources` instance attribute passed as explicit state (second component
of the result).  A provider error is returned verbatim; an empty result set
yields the "No relevant content found" message with the truthy filters named;
otherwise the results are formatted and `last_sources` is replaced. -/
def CourseSearchTool.execute (store : Store) (query : String)
    (course_name : Option String) (lesson_number : Option Int)
    (last_sources : List Citation) : String × List Citation :=
  let results := store.search query course_name lesson_number
  match results.error with
  | some e => (e, last_sources)
  | none =>
    if results.is_empty then
      let filter_info :=
        (if pyTruthyStr course_name
         then " in course '" ++ course_name.getD "" ++ "'" else "")
          ++ (if pyTruthyInt lesson_number
              then " in lesson " ++ toString (lesson_number.getD 0) else "")
      ("No relevant content found" ++ filter_info ++ ".", last_sources)
    else
      format_results store results

/-! ## search_tools.py: ToolManager -/

/-- A registered tool as the `ToolManager` sees it: the name slot of its
definition (`tool.get_tool_definition()["function"]["name"]`, `none`/`some ""`
both falsy) and its `execute(**kwargs)` behaviour; kwargs are modelled as a
key/value list, and a raised exception as `Except.error`. -/
structure MTool where
  defName : Option String
  run : List (String × String) → Except String String

/-- The `ToolManager`'s `self.tools` dict: name → tool, insertion order kept,
assignment to an existing key overwrites in place. -/
structure ToolManager where
  tools : List (String × MTool)

/-- Python `dict` assignment `d[k] = v`: replace the value of an existing key
in place, else append the new binding. -/
def dictSet (k : String) (v : MTool) : List (String × MTool) → List (String × MTool)
  | [] => [(k, v)]
  | (k0, v0) :: rest =>
    if k0 = k then (k, v) :: rest else (k0, v0) :: dictSet k v rest

/-- `ToolManager.register_tool` (search_tools.py lines 361-367): read the name
from the tool's definition, raise `ValueError` when it is falsy, else store
the tool under that name — note that an existing tool of the same name is
silently overwritten. -/
def ToolManager.register_tool (m : ToolManager) (t : MTool) : Except String ToolManager :=
  match t.defName with
  | none => .error "Tool must have a 'name' in its definition"
  | some n =>
    if n = "" then .error "Tool must have a 'name' in its definition"
    else .ok ⟨dictSet n t m.tools⟩

/-- `ToolManager.execute_tool` (search_tools.py lines 374-379): an unknown
name returns the "not found" text (no exception); a known tool is executed
(and may itself raise, which `execute_tool` does not catch). -/
def ToolManager.execute_tool (m : ToolManager) (tool_name : String)
    (kwargs : List (String × String)) : Except String String :=
  match m.tools.lookup tool_name with
  | none => .ok ("Tool '" ++ tool_name ++ "' not found")
  | some t => t.run kwargs

/-! ## search_tools.py: NutritionTool -/

/-- Outcome of the remote interaction inside `NutritionTool.execute`
(search_tools.py lines 294-343), as the `try` block observes it:
a timeout (`requests.exceptions.Timeout`), a transport/HTTP error
(`requests.exceptions.RequestException`, including `raise_for_status`),
a body that is not JSON (`json.JSONDecodeError`), a JSON dict (carrying its
`answer`/`response`/`content`/`message` string fields, each possibly absent,
plus its full `json.dumps` rendering), or a non-dict JSON value rendered by
`str`. -/
inductive RemoteResult
  | timeout
  | requestError (e : String)
  | badJson
  | jsonDict (answer resp content message : Option String) (dumped : String)
  | jsonOther (s : String)
deriving DecidableEq, Repr

/-- The Python chain `a or b or c or d` over optional strings followed by
`if answer:`: the first truthy (present and non-empty) field wins; when none
is truthy the chain's value is falsy. -/
def firstTruthy : List (Option String) → Option String
  | [] => none
  | none :: rest => firstTruthy rest
  | some s :: rest => if s = "" then firstTruthy rest else some s

/-- `NutritionTool.execute` (search_tools.py lines 236-352).  The token
manager is `none` when absent; otherwise `get_token()` either yields a token
or raises (caught by the final generic handler).  The remote interaction is
the `remote` oracle.  The tool's `last_sources` attribute is passed as
explicit state (second component): the source never defines, reads, or
clears it, so every branch returns it unchanged. -/
def NutritionTool.execute (token_manager : Option (Except String String))
    (last_sources : List Citation) (remote : RemoteResult) : String × List Citation :=
  match token_manager with
  | none => ("Error: Authentication not configured for nutrition queries.", last_sources)
  | some tk =>
    match tk with
    | .error e =>
      ("Error: Unexpected error while querying nutrition API - " ++ e, last_sources)
    | .ok _ =>
      match remote with
      | .timeout => ("Error: Nutrition API request timed out. Please try again.", last_sources)
      | .requestError e => ("Error: Failed to connect to nutrition API - " ++ e, last_sources)
      | .badJson => ("Error: Invalid response format from nutrition API.", last_sources)
      | .jsonDict a r c msg dumped =>
        (match firstTruthy [a, r, c, msg] with
         | some s => s
         | none => dumped, last_sources)
      | .jsonOther s => (s, last_sources)

/-! ## Helper lemmas -/

/-- A string append is non-empty when its left part is. -/
theorem append_ne_empty_of_left (a b : String) (ha : a ≠ "") : a ++ b ≠ "" := by
  intro h
  apply ha
  have hd := congrArg String.data h
  rw [String.data_append] at hd
  exact String.ext (List.append_eq_nil.mp hd).1

/-- The initial transcript always ends with the user message. -/
theorem initMessages_getLast (q : String) (h : Option String) :
    (initMessages q h).getLast? = some (Msg.user q) := by
  unfold initMessages
  exact List.getLast?_concat _

/-- The round loop makes at most `fuel` completion calls beyond the `cc`
already accounted for. -/
theorem roundLoop_comps_le (env : GenEnv) :
    ∀ (fuel : Nat) (msgs : List Msg) (cc tr te : Nat),
      (roundLoop env msgs cc tr te fuel).comps ≤ cc + fuel := by
  intro fuel
  induction fuel with
  | zero => intro msgs cc tr te; simp [roundLoop, LoopOut.comps]
  | succ f ih =>
    intro msgs cc tr te
    simp only [roundLoop]
    split
    · simp only [LoopOut.comps]; omega
    · split
      · simp only [LoopOut.comps]; omega
      · exact le_trans (ih _ _ _ _) (by omega)

/-- The round loop runs at most `fuel` tool-execution phases beyond the `tr`
already accounted for. -/
theorem roundLoop_rounds_le (env : GenEnv) :
    ∀ (fuel : Nat) (msgs : List Msg) (cc tr te : Nat),
      (roundLoop env msgs cc tr te fuel).rounds ≤ tr + fuel := by
  intro fuel
  induction fuel with
  | zero => intro msgs cc tr te; simp [roundLoop, LoopOut.rounds]
  | succ f ih =>
    intro msgs cc tr te
    simp only [roundLoop]
    split
    · simp only [LoopOut.rounds]; omega
    · split
      · simp only [LoopOut.rounds]; omega
      · exact le_trans (ih _ _ _ _) (by omega)

/-- The post-loop code adds at most one completion call (the synthesis call)
and never runs a tool phase. -/
theorem finishRun_counters (env : GenEnv) (out : LoopOut) :
    (finishRun env out).completions ≤ out.comps + 1
      ∧ (finishRun env out).toolRounds = out.rounds := by
  cases out with
  | done a cc tr te => exact ⟨Nat.le_succ cc, rfl⟩
  | stopped ms cc tr te =>
    simp only [finishRun]
    split
    · exact ⟨Nat.le_refl _, rfl⟩
    · exact ⟨Nat.le_succ _, rfl⟩
    · exact ⟨Nat.le_succ _, rfl⟩

/-- The tool-call loop appends exactly one `tool` message per requested
call. -/
theorem execCalls_length (env : GenEnv) :
    ∀ (calls : List ToolCall) (te : Nat),
      (execCalls env te calls).1.length = calls.length := by
  intro calls
  induction calls with
  | nil => intro te; rfl
  | cons c rest ih => intro te; simp [execCalls, ih]

/-- The tool-call loop performs one execution per requested call: the
execution counter advances by the number of requested calls, none skipped. -/
theorem execCalls_counter (env : GenEnv) :
    ∀ (calls : List ToolCall) (te : Nat),
      (execCalls env te calls).2.1 = te + calls.length := by
  intro calls
  induction calls with
  | nil => intro te; simp [execCalls]
  | cons c rest ih => intro te; simp [execCalls, ih]; omega

/-- The i-th appended `tool` message corresponds to the i-th requested call,
carrying its call id and the content of its own execution outcome. -/
theorem execCalls_getElem (env : GenEnv) :
    ∀ (calls : List ToolCall) (te i : Nat),
      (execCalls env te calls).1[i]?
        = (calls[i]?).map
            (fun c => Msg.tool c.id (toolMsgContent (env.exec (te + i) c))) := by
  intro calls
  induction calls with
  | nil => intro te i; simp [execCalls]
  | cons c rest ih =>
    intro te i
    cases i with
    | zero => simp [execCalls]
    | succ j =>
      simp only [execCalls, List.getElem?_cons_succ]
      rw [ih (te + 1) j]
      simp only [show te + 1 + j = te + (j + 1) from by omega]

/-! ## Claims about the orchestration loop -/

/-- C1: for `max_tool_rounds = N` (`N ≥ 1`), the completion endpoint is
invoked at most `N + 1` times (at most `N` in-round calls plus at most one
synthesis call), and the tool-execution phase of a round happens at most `N`
times during one `generate_response` call.  ("Tool execution" is the round
phase of the spec's glossary — one round's phase executes every call the
reply requested.) -/
theorem generate_response_round_budget (env : GenEnv) (q : String)
    (h : Option String) (N : Nat) (_hN : 1 ≤ N) :
    (generate_response env q h (N : Int)).completions ≤ N + 1
      ∧ (generate_response env q h (N : Int)).toolRounds ≤ N := by
  unfold generate_response
  rw [show ((N : Int)).toNat = N from by simp]
  have hf := finishRun_counters env (roundLoop env (initMessages q h) 0 0 0 N)
  have hc := roundLoop_comps_le env N (initMessages q h) 0 0 0
  have hr := roundLoop_rounds_le env N (initMessages q h) 0 0 0
  exact ⟨le_trans hf.1 (by omega), by rw [hf.2]; omega⟩

/-- Environment for the budget witness: every reply requests one tool call
and every execution succeeds, so a run with `N = 2` exercises the full
budget (two tool rounds plus the synthesis call). -/
def envW1 : GenEnv :=
  ⟨fun _ => ⟨some "hi", [⟨"id1", "search_course_content", "args"⟩]⟩,
   fun _ _ => .success "ok"⟩

/-- Witness for C1 at `N = 2` on a concrete environment. -/
theorem generate_response_round_budget_witness :
    1 ≤ 2
      ∧ (generate_response envW1 "q" none ((2 : Nat) : Int)).completions ≤ 2 + 1
      ∧ (generate_response envW1 "q" none ((2 : Nat) : Int)).toolRounds ≤ 2 :=
  ⟨by decide,
   (generate_response_round_budget envW1 "q" none 2 (by decide)).1,
   (generate_response_round_budget envW1 "q" none 2 (by decide)).2⟩

/-- C3: when the model's first reply requests no tools, exactly one
completion call is made, no tool phase runs and no tool is executed, and the
reply's text (`content or ""`) is returned. -/
theorem generate_response_first_reply_final (env : GenEnv) (q : String)
    (h : Option String) (N : Nat) (hN : 1 ≤ N)
    (hr : (env.replies 0).tool_calls = []) :
    generate_response env q h (N : Int)
      = ⟨contentOrEmpty (env.replies 0).content, 1, 0, 0⟩ := by
  obtain ⟨m, rfl⟩ : ∃ m, N = m + 1 := ⟨N - 1, (Nat.succ_pred_eq_of_pos hN).symm⟩
  unfold generate_response
  rw [show ((m + 1 : Nat) : Int).toNat = m + 1 from by simp]
  simp [roundLoop, hr, finishRun]

/-- Environment for the first-reply witness: the first reply is plain text. -/
def envW3 : GenEnv := ⟨fun _ => ⟨some "plain answer", []⟩, fun _ _ => .success "ok"⟩

/-- Witness for C3 on a concrete environment with `N = 1`. -/
theorem generate_response_first_reply_final_witness :
    1 ≤ 1
      ∧ (envW3.replies 0).tool_calls = []
      ∧ generate_response envW3 "q" (some "past") ((1 : Nat) : Int)
          = ⟨contentOrEmpty (envW3.replies 0).content, 1, 0, 0⟩ :=
  ⟨by decide, by decide,
   generate_response_first_reply_final envW3 "q" (some "past") 1 (by decide) (by decide)⟩

/-- C10: with `max_tool_rounds ≤ 0` the round loop body never runs: no
completion request is issued, no tool phase runs, no tool is executed, and
the returned string is the caller's query (the content of the last initially
built message, the user message). -/
theorem generate_response_nonpositive_rounds (env : GenEnv) (q : String)
    (h : Option String) (M : Int) (hM : M ≤ 0) :
    generate_response env q h M = ⟨q, 0, 0, 0⟩ := by
  unfold generate_response
  rw [Int.toNat_of_nonpos hM]
  simp [roundLoop, finishRun, initMessages_getLast, msgContentOrEmpty]

/-- Witness for C10 at `max_tool_rounds = -1` on a concrete environment. -/
theorem generate_response_nonpositive_rounds_witness :
    (-1 : Int) ≤ 0
      ∧ generate_response envW1 "the query" none (-1) = ⟨"the query", 0, 0, 0⟩ :=
  ⟨by decide, generate_response_nonpositive_rounds envW1 "the query" none (-1) (by decide)⟩

/-- C2: when some tool call of a round fails, the round loop stops right
after that round — it makes no further completion call and starts no further
round (the loop result is `stopped` with exactly one more completion) — yet
every requested call of that round was executed (the execution counter
advanced by the full request count) and the i-th appended `tool` message
corresponds to the i-th requested call, in request order. -/
theorem roundLoop_failed_round_stops (env : GenEnv) (msgs : List Msg)
    (cc tr te fuel : Nat)
    (hne : (env.replies cc).tool_calls ≠ [])
    (hfail : (execCalls env te (env.replies cc).tool_calls).2.2 = true) :
    roundLoop env msgs cc tr te (fuel + 1)
      = .stopped
          (msgs ++ [Msg.assistant (env.replies cc).content (env.replies cc).tool_calls]
            ++ (execCalls env te (env.replies cc).tool_calls).1)
          (cc + 1) (tr + 1) (te + (env.replies cc).tool_calls.length)
      ∧ (execCalls env te (env.replies cc).tool_calls).1.length
          = (env.replies cc).tool_calls.length
      ∧ ∀ i : Nat,
          (execCalls env te (env.replies cc).tool_calls).1[i]?
            = ((env.replies cc).tool_calls[i]?).map
                (fun c => Msg.tool c.id (toolMsgContent (env.exec (te + i) c))) := by
  refine ⟨?_, execCalls_length env _ te, fun i => execCalls_getElem env _ te i⟩
  have hie : (env.replies cc).tool_calls.isEmpty = false := by
    cases hl : (env.replies cc).tool_calls with
    | nil => exact absurd hl hne
    | cons a l => rfl
  simp only [roundLoop, hie, hfail, Bool.or_true, Bool.false_eq_true, if_false, if_true]
  rw [execCalls_counter]

/-- Environment for the failed-round witness: the first reply requests two
tool calls; the first execution fails to parse its arguments, the second
succeeds. -/
def envW2 : GenEnv :=
  ⟨fun _ => ⟨none, [⟨"a", "t1", "bad"⟩, ⟨"b", "t2", "good"⟩]⟩,
   fun k _ => if k = 0 then .jsonError else .success "ok"⟩

/-- Witness for C2 on a concrete environment with remaining fuel 5. -/
theorem roundLoop_failed_round_stops_witness :
    (envW2.replies 0).tool_calls ≠ []
      ∧ (execCalls envW2 0 (envW2.replies 0).tool_calls).2.2 = true
      ∧ (roundLoop envW2 [] 0 0 0 (4 + 1)
          = .stopped
              ([] ++ [Msg.assistant (envW2.replies 0).content (envW2.replies 0).tool_calls]
                ++ (execCalls envW2 0 (envW2.replies 0).tool_calls).1)
              (0 + 1) (0 + 1) (0 + (envW2.replies 0).tool_calls.length)
          ∧ (execCalls envW2 0 (envW2.replies 0).tool_calls).1.length
              = (envW2.replies 0).tool_calls.length
          ∧ ∀ i : Nat,
              (execCalls envW2 0 (envW2.replies 0).tool_calls).1[i]?
                = ((envW2.replies 0).tool_calls[i]?).map
                    (fun c => Msg.tool c.id (toolMsgContent (envW2.exec (0 + i) c)))) :=
  ⟨by decide, by decide,
   roundLoop_failed_round_stops envW2 [] 0 0 0 4 (by decide) (by decide)⟩

/-! ## Claims about the ToolManager -/

/-- After a dict assignment the key maps to the newly assigned value. -/
theorem dictSet_lookup (k : String) (v : MTool) :
    ∀ l : List (String × MTool), (dictSet k v l).lookup k = some v := by
  intro l
  induction l with
  | nil => simp [dictSet, List.lookup]
  | cons p rest ih =>
    obtain ⟨k0, v0⟩ := p
    by_cases h : k0 = k
    · simp [dictSet, h, List.lookup]
    · have hbe : (k == k0) = false := by simp [Ne.symm h]
      simp [dictSet, h, List.lookup, ih, hbe]

/-- A tool whose definition name slot is `"t"`, used to probe registration. -/
def toolA : MTool := ⟨some "t", fun _ => .ok "A"⟩

/-- A second, distinct tool whose definition name slot is also `"t"`. -/
def toolB : MTool := ⟨some "t", fun _ => .ok "B"⟩

/-- C5 counterexample: registering a tool whose name collides with an
already-registered tool does NOT fail with a duplicate-name error — the
registration succeeds and silently replaces the earlier binding. -/
theorem register_tool_duplicate_counterexample :
    ToolManager.register_tool ⟨[("t", toolA)]⟩ toolB = .ok ⟨[("t", toolB)]⟩
      ∧ (ToolManager.mk [("t", toolB)]).tools.lookup "t" = some toolB :=
  ⟨rfl, rfl⟩

/-- C5 amended: `register_tool` performs no duplicate detection — for every
registry state, registering a tool with a truthy name succeeds and maps that
name to the new tool, replacing any earlier binding (last registration
wins); only a definition whose name slot is falsy (absent or empty) fails,
with `ValueError("Tool must have a 'name' in its definition")`. -/
theorem register_tool_behaviour (m : ToolManager) (t : MTool) :
    ((t.defName = none ∨ t.defName = some "") →
        m.register_tool t = .error "Tool must have a 'name' in its definition")
      ∧ ∀ n : String, t.defName = some n → n ≠ "" →
          m.register_tool t = .ok ⟨dictSet n t m.tools⟩
            ∧ (dictSet n t m.tools).lookup n = some t := by
  constructor
  · rintro (h | h) <;> simp [ToolManager.register_tool, h]
  · intro n hn hne
    exact ⟨by simp [ToolManager.register_tool, hn, hne], dictSet_lookup n t m.tools⟩

/-- Witness for the amended C5: re-registering name `"t"` over an existing
binding succeeds and the registry now yields the new tool. -/
theorem register_tool_behaviour_witness :
    ToolManager.register_tool ⟨[("t", toolA)]⟩ toolB = .ok ⟨dictSet "t" toolB [("t", toolA)]⟩
      ∧ (dictSet "t" toolB [("t", toolA)]).lookup "t" = some toolB :=
  (register_tool_behaviour ⟨[("t", toolA)]⟩ toolB).2 "t" rfl (by decide)

/-- C9: for every tool name not present in the registry and every argument
set, `execute_tool` returns (does not raise) a text that contains the
requested name and the words "not found". -/
theorem execute_tool_unknown (m : ToolManager) (name : String)
    (kwargs : List (String × String)) (h : m.tools.lookup name = none) :
    m.execute_tool name kwargs = .ok ("Tool '" ++ name ++ "' not found")
      ∧ (∃ pre post, "Tool '" ++ name ++ "' not found" = pre ++ name ++ post)
      ∧ ∃ pre post, "Tool '" ++ name ++ "' not found" = pre ++ "not found" ++ post := by
  refine ⟨?_, ⟨"Tool '", "' not found", rfl⟩, ⟨"Tool '" ++ name ++ "' ", "", ?_⟩⟩
  · unfold ToolManager.execute_tool
    rw [h]
  · rw [String.append_empty, String.append_assoc ("Tool '" ++ name) "' " "not found"]
    rfl

/-- Witness for C9: an empty registry and the name "ghost". -/
theorem execute_tool_unknown_witness :
    (ToolManager.mk []).tools.lookup "ghost" = none
      ∧ (ToolManager.execute_tool ⟨[]⟩ "ghost" [("q", "x")]
            = .ok ("Tool '" ++ "ghost" ++ "' not found")
          ∧ (∃ pre post, "Tool '" ++ "ghost" ++ "' not found" = pre ++ "ghost" ++ post)
          ∧ ∃ pre post, "Tool '" ++ "ghost" ++ "' not found" = pre ++ "not found" ++ post) :=
  ⟨rfl, execute_tool_unknown ⟨[]⟩ "ghost" [("q", "x")] rfl⟩

/-! ## Claims about CourseSearchTool -/

/-- A store whose search always finds nothing (and reports no error). -/
def storeEmpty : Store := ⟨fun _ _ _ => ⟨[], [], none⟩, fun _ _ => none⟩

/-- C6 counterexample: with `lesson_number = 0` supplied (and an empty
course-name string), the empty-result message is exactly
"No relevant content found." — it names neither the lesson filter nor the
course filter, because `if lesson_number:` / `if course_name:` treat `0` and
`""` as absent. -/
theorem course_search_lesson_zero_counterexample :
    (CourseSearchTool.execute storeEmpty "q" (some "") (some 0) []).1
        = "No relevant content found."
      ∧ ¬ ("lesson".data <:+: (CourseSearchTool.execute storeEmpty "q" (some "") (some 0) []).1.data)
      ∧ ¬ ("course".data <:+: (CourseSearchTool.execute storeEmpty "q" (some "") (some 0) []).1.data) := by
  refine ⟨rfl, ?_, ?_⟩ <;> decide

/-- C6 amended: on an error-free empty result the message is
"No relevant content found" with the truthy filter clauses appended; it names
the course filter whenever a non-empty `course_name` was supplied and the
lesson filter whenever a nonzero `lesson_number` was supplied, and omits both
clauses when both filters are absent (`lesson_number = 0` and
`course_name = ""` are treated as absent by Python truthiness). -/
theorem course_search_empty_result_message (store : Store) (q : String)
    (cn : Option String) (ln : Option Int) (srcs : List Citation)
    (herr : (store.search q cn ln).error = none)
    (hemp : (store.search q cn ln).documents = []) :
    (CourseSearchTool.execute store q cn ln srcs).1
      = "No relevant content found"
          ++ (if pyTruthyStr cn then " in course '" ++ cn.getD "" ++ "'" else "")
          ++ (if pyTruthyInt ln then " in lesson " ++ toString (ln.getD 0) else "")
          ++ "."
      ∧ (∀ c : String, cn = some c → c ≠ "" →
          ∃ pre post, (CourseSearchTool.execute store q cn ln srcs).1
            = pre ++ (" in course '" ++ c ++ "'") ++ post)
      ∧ (∀ n : Int, ln = some n → n ≠ 0 →
          ∃ pre post, (CourseSearchTool.execute store q cn ln srcs).1
            = pre ++ (" in lesson " ++ toString n) ++ post)
      ∧ (cn = none → ln = none →
          (CourseSearchTool.execute store q cn ln srcs).1 = "No relevant content found.") := by
  have hmsg : (CourseSearchTool.execute store q cn ln srcs).1
      = "No relevant content found"
          ++ (if pyTruthyStr cn then " in course '" ++ cn.getD "" ++ "'" else "")
          ++ (if pyTruthyInt ln then " in lesson " ++ toString (ln.getD 0) else "")
          ++ "." := by
    simp only [CourseSearchTool.execute, SearchResults.is_empty, herr, hemp]
    simp [String.append_assoc]
  refine ⟨hmsg, ?_, ?_, ?_⟩
  · intro c hc hcne
    subst hc
    rw [hmsg]
    refine ⟨"No relevant content found",
      (if pyTruthyInt ln then " in lesson " ++ toString (ln.getD 0) else "") ++ ".", ?_⟩
    simp [pyTruthyStr, hcne, String.append_assoc]
  · intro n hn hn0
    subst hn
    rw [hmsg]
    refine ⟨"No relevant content found"
      ++ (if pyTruthyStr cn then " in course '" ++ cn.getD "" ++ "'" else ""), ".", ?_⟩
    simp [pyTruthyInt, hn0, String.append_assoc]
  · intro h1 h2
    subst h1; subst h2
    rw [hmsg]
    simp [pyTruthyStr, pyTruthyInt]

/-- Witness for the amended C6: empty search with a real course filter and
lesson filter 2 names both filters. -/
theorem course_search_empty_result_message_witness :
    (storeEmpty.search "q" (some "MCP") (some 2)).error = none
      ∧ (storeEmpty.search "q" (some "MCP") (some 2)).documents = []
      ∧ (CourseSearchTool.execute storeEmpty "q" (some "MCP") (some 2) []).1
          = "No relevant content found in course 'MCP' in lesson 2." :=
  ⟨rfl, rfl, by
    have h := (course_search_empty_result_message storeEmpty "q" (some "MCP") (some 2) []
      rfl rfl).1
    simpa using h⟩

/-- A store returning a single hit whose metadata carries an explicitly
empty course title and no lesson number. -/
def store7 : Store := ⟨fun _ _ _ => ⟨["doc"], [⟨some "", none⟩], none⟩, fun _ _ => none⟩

/-- C7 counterexample: after a successful call with one hit whose metadata
holds `course_title = ""` (and no lesson number), the replaced buffer's
single entry has EMPTY text — refuting "each with non-empty text". -/
theorem course_search_sources_empty_text_counterexample :
    (CourseSearchTool.execute store7 "q" none none [⟨"old", none⟩]).2
        = [{ text := "", url := none }]
      ∧ ((CourseSearchTool.execute store7 "q" none none [⟨"old", none⟩]).2.map Citation.text)
        = [""] :=
  ⟨rfl, rfl⟩

/-- C7 amended: after a successful call with `k` hits the buffer holds
exactly `k` entries and is replaced wholesale (its value is independent of
the previous buffer contents); every entry's text is non-empty provided no
hit carries an explicitly empty `course_title` string (an absent title is
rendered as "unknown", but a present-and-empty one yields an empty text when
no lesson number accompanies it). -/
theorem course_search_sources_buffer (store : Store) (q : String)
    (cn : Option String) (ln : Option Int) (srcs : List Citation) (k : Nat)
    (herr : (store.search q cn ln).error = none)
    (hne : (store.search q cn ln).documents ≠ [])
    (hdl : (store.search q cn ln).documents.length = k)
    (hml : (store.search q cn ln).metadata.length = k) :
    (CourseSearchTool.execute store q cn ln srcs).2.length = k
      ∧ ((∀ m ∈ (store.search q cn ln).metadata, m.course_title ≠ some "") →
          ∀ c ∈ (CourseSearchTool.execute store q cn ln srcs).2, c.text ≠ "")
      ∧ (CourseSearchTool.execute store q cn ln srcs).2
          = (CourseSearchTool.execute store q cn ln []).2 := by
  have hie : (store.search q cn ln).documents.isEmpty = false := by
    cases hd : (store.search q cn ln).documents with
    | nil => exact absurd hd hne
    | cons a l => rfl
  have hbranch : ∀ s0 : List Citation, (CourseSearchTool.execute store q cn ln s0).2
      = ((store.search q cn ln).documents.zip (store.search q cn ln).metadata).map
          (citeHit store) := by
    intro s0
    simp only [CourseSearchTool.execute, SearchResults.is_empty, herr, hie]
    simp [format_results]
  refine ⟨?_, ?_, by rw [hbranch, hbranch]⟩
  · rw [hbranch]
    simp [hdl, hml]
  · intro hct c hc
    rw [hbranch] at hc
    obtain ⟨p, hp, rfl⟩ := List.mem_map.mp hc
    obtain ⟨d, m⟩ := p
    have hm := hct m (List.of_mem_zip hp).2
    simp only [citeHit]
    cases hmc : m.course_title with
    | none =>
      simp only [hmc, Option.getD_none]
      exact append_ne_empty_of_left _ _ (by decide)
    | some t =>
      have ht : t ≠ "" := fun he => hm (by rw [hmc, he])
      simp only [hmc, Option.getD_some]
      exact append_ne_empty_of_left _ _ ht

/-- A store returning two well-titled hits, for the buffer witness. -/
def storeW7 : Store :=
  ⟨fun _ _ _ =>
      ⟨["Welcome to the course", "More content"],
       [⟨some "Course X", some 0⟩, ⟨some "Course X", some 1⟩], none⟩,
   fun _ n => if n = 0 then some "https://example.com/lesson0" else none⟩

/-- Witness for the amended C7: two hits yield exactly two non-empty-text
entries, independent of the stale buffer. -/
theorem course_search_sources_buffer_witness :
    (storeW7.search "q" none none).error = none
      ∧ (storeW7.search "q" none none).documents ≠ []
      ∧ (storeW7.search "q" none none).documents.length = 2
      ∧ (storeW7.search "q" none none).metadata.length = 2
      ∧ ((CourseSearchTool.execute storeW7 "q" none none [⟨"old", none⟩]).2.length = 2
          ∧ ((∀ m ∈ (storeW7.search "q" none none).metadata, m.course_title ≠ some "") →
              ∀ c ∈ (CourseSearchTool.execute storeW7 "q" none none [⟨"old", none⟩]).2,
                c.text ≠ "")
          ∧ (CourseSearchTool.execute storeW7 "q" none none [⟨"old", none⟩]).2
              = (CourseSearchTool.execute storeW7 "q" none none []).2) :=
  ⟨rfl, by decide, rfl, rfl,
   course_search_sources_buffer storeW7 "q" none none [⟨"old", none⟩] 2
     rfl (by decide) rfl rfl⟩

/-! ## Claims about NutritionTool -/

/-- A successful remote answer that ends with a "Cited Sources" block holding
two embedded links (the shape exercised by the repository's own tests). -/
def nutritionSampleAnswer : String :=
  "Info here.\n\nCited Sources:\n<a href=\"/doc1.pdf\" target=\"_blank\">Document 1</a>\n<a href=\"/doc2.pdf\" target=\"_blank\">Document 2</a>"

/-- C4 evaluated on the code: for a successful remote answer ending in a
"Cited Sources" block with two links, `NutritionTool.execute` returns the
answer verbatim — the block is still present in the returned text — and the
citation state is left untouched (no entries are recorded): the tool performs
no source extraction at all. -/
theorem nutrition_execute_no_source_extraction :
    NutritionTool.execute (some (.ok "token")) []
        (.jsonDict (some nutritionSampleAnswer) none none none "dumped")
      = (nutritionSampleAnswer, [])
      ∧ ("Cited Sources".data <:+: nutritionSampleAnswer.data)
      ∧ ([] : List Citation).length ≠ 2 := by
  refine ⟨rfl, by decide, by decide⟩

/-- C8 evaluated on the code: with no credential provider the returned error
text does contain "not configured", but the citation state passed in is
returned unchanged — a stale citation from a previous success is NOT
cleared (the source never touches `last_sources`). -/
theorem nutrition_execute_stale_sources :
    NutritionTool.execute none [⟨"old", some "old"⟩] .timeout
      = ("Error: Authentication not configured for nutrition queries.",
         [⟨"old", some "old"⟩])
      ∧ ("not configured".data
          <:+: "Error: Authentication not configured for nutrition queries.".data)
      ∧ ([(⟨"old", some "old"⟩ : Citation)] : List Citation) ≠ [] := by
  refine ⟨rfl, by decide, by decide⟩
